import Mathlib

/-!
Shallow embedding of the tunnel-lifecycle core of the `shhh` SSH reverse-
tunnelling server: the port policy (`allowTCPForwarding`), the
`tcpip-forward` request handler, the listener accept loop
(`tcpipForwardConnectionHandler`) and the per-connection byte-relay tasks.

External collaborators (the `net` package, the secure transport's
marshalling and channel opening) are modelled as environment parameters:
every point at which the Go code consults the outside world becomes an
explicit input, and every externally visible effect (message sent on the
per-connection `messages` channel, socket opened or closed, task spawned)
becomes an explicit component of the result.
-/

namespace Shhh

/-- Port-forward eligibility predicate, from the listener helper file:
`(port != 22 && port != 80 && port != 443) && port > 1024 || port == 0`
(Go precedence: `&&` binds tighter than `||`). -/
def allowTCPForwarding (port : Nat) : Bool :=
  (port != 22 && port != 80 && port != 443) && decide (port > 1024) || port == 0

/-- The decoded payload of a `tcpip-forward` request:
`struct { BindAddr string; BindPort uint32 }`. -/
structure BindRequest where
  bindAddr : String
  bindPort : Nat
deriving Repr, DecidableEq

/-- A live listening socket. `addrHost`/`addrPort` are the components of
`ln.Addr().String()`; the Go code recovers the port by
`net.SplitHostPort` followed by `strconv.Atoi`, which on a `"host:port"`
string yields exactly this pair, so the round-trip is modelled directly. -/
structure Listener where
  addrHost : String
  addrPort : Nat
deriving Repr, DecidableEq

/-- `ln.Addr().String()`. -/
def addrString (ln : Listener) : String :=
  ln.addrHost ++ ":" ++ toString ln.addrPort

/-- The synchronous reply payload of the request handler: either a raw
byte payload (diagnostic text, possibly empty) or the marshalled
`struct { BindPort uint32 }` success response. -/
inductive Reply where
  | raw (text : String)
  | bindResponse (boundPort : Nat)
deriving Repr, DecidableEq

/-- Length in bytes of a raw diagnostic payload (a marshalled uint32
response occupies four bytes). -/
def Reply.byteLength : Reply → Nat
  | .raw s => s.length
  | .bindResponse _ => 4

/-- The handler's environment: whether the `messages` channel is present
in the connection context (the type assertion succeeds), the result of
`gossh.Unmarshal` on the request payload, and the result of `net.Listen`
for a given `(bindAddr, bindPort)`. -/
structure HandlerEnv where
  messagesOk : Bool
  decoded : Option BindRequest
  listen : String → Nat → Option Listener

/-- Everything externally observable about one run of the request
handler: the `(ok, payload)` reply, the messages sent on the `messages`
channel before the handler returned, the listener it opened (if any),
whether the deferred cleanup closed the `messages` channel, and whether
the asynchronous accept-loop task was spawned. -/
structure HandlerResult where
  ok : Bool
  payload : Reply
  preReturnMessages : List String
  openedListener : Option Listener
  closedMessages : Bool
  supervisorSpawned : Bool
deriving Repr

/-- The `tcpip-forward` request handler. Mirrors the Go code line by
line: messages-channel retrieval (failure returns `"internal server
error"` before the deferred close is registered), `defer`red close of
`messages` when the reply is `!ok`, payload decoding (failure returns an
empty payload), the inline reserved-port check `BindPort != 22 && != 80
&& != 443`, `net.Listen` (failure returns an empty payload), the
synchronous `messages <- "forwarding traffic from <addr>"` send, and the
success reply carrying the port read back from the live listener. -/
def tcpipForwardRequestHandler (env : HandlerEnv) : HandlerResult :=
  if !env.messagesOk then
    { ok := false, payload := .raw "internal server error",
      preReturnMessages := [], openedListener := none,
      closedMessages := false, supervisorSpawned := false }
  else
    match env.decoded with
    | none =>
        { ok := false, payload := .raw "",
          preReturnMessages := [], openedListener := none,
          closedMessages := true, supervisorSpawned := false }
    | some request =>
        if request.bindPort != 22 && request.bindPort != 80 && request.bindPort != 443 then
          match env.listen request.bindAddr request.bindPort with
          | none =>
              { ok := false, payload := .raw "",
                preReturnMessages := [], openedListener := none,
                closedMessages := true, supervisorSpawned := false }
          | some ln =>
              { ok := true, payload := .bindResponse ln.addrPort,
                preReturnMessages := ["forwarding traffic from " ++ addrString ln],
                openedListener := some ln,
                closedMessages := false, supervisorSpawned := true }
        else
          { ok := false,
            payload := .raw ("forwarding " ++ toString request.bindPort ++ " not supported yet"),
            preReturnMessages := [], openedListener := none,
            closedMessages := true, supervisorSpawned := false }

/-- A concrete handler environment: decodable request for port 1000,
with `net.Listen` succeeding and binding port 1000. -/
def envPort1000 : HandlerEnv :=
  { messagesOk := true
    decoded := some { bindAddr := "127.0.0.1", bindPort := 1000 }
    listen := fun _ p => some { addrHost := "127.0.0.1", addrPort := p } }

/-- A concrete handler environment: decodable request for the reserved
port 22. -/
def envPort22 : HandlerEnv :=
  { messagesOk := true
    decoded := some { bindAddr := "127.0.0.1", bindPort := 22 }
    listen := fun _ p => some { addrHost := "127.0.0.1", addrPort := p } }

/-- A concrete handler environment: ephemeral request (port 0), the OS
assigning port 43210. -/
def envEphemeral : HandlerEnv :=
  { messagesOk := true
    decoded := some { bindAddr := "localhost", bindPort := 0 }
    listen := fun _ _ => some { addrHost := "127.0.0.1", addrPort := 43210 } }

/-- A concrete handler environment whose payload fails to decode. -/
def envBadPayload : HandlerEnv :=
  { messagesOk := true
    decoded := none
    listen := fun _ p => some { addrHost := "127.0.0.1", addrPort := p } }

/-- An error returned by `ln.Accept()`: whether it is a `*net.OpError`,
the results of its `Timeout()` and `Temporary()` methods, and its
`Error()` text. -/
structure AcceptError where
  isOpError : Bool
  timeout : Bool
  temporary : Bool
  msg : String
deriving Repr, DecidableEq

/-- An accepted socket: the components of
`net.SplitHostPort(conn.RemoteAddr().String())`. -/
structure Conn where
  remoteHost : String
  remotePort : Nat
deriving Repr, DecidableEq

/-- One outcome of an `ln.Accept()` call, as seen by the accept loop: a
connection (together with the outcome of the subsequent `newChannel`
call — `none` on success, `some errText` when opening the forwarded
channel fails), or an accept error. -/
inductive AcceptEvent where
  | accepted (c : Conn) (channelOpenError : Option String)
  | acceptError (e : AcceptError)
deriving Repr, DecidableEq

/-- An externally observable action of the accept loop and its
supervising task: a message sent on the notification stream, the spawning
of the two relay copy tasks for an accepted socket (`channelOk` records
whether the forwarded channel was actually opened), a `Close()` of an
accepted socket performed by the loop body, or the closing of the
notification stream itself. -/
inductive LoopAction where
  | notify (msg : String)
  | spawnRelayTasks (c : Conn) (channelOk : Bool)
  | closeConn (c : Conn)
  | closeStream
deriving Repr, DecidableEq

/-- `errors.Wrap(err, "failed to accept new connection")`. -/
def wrapAcceptError (e : AcceptError) : String :=
  "failed to accept new connection: " ++ e.msg

/-- The accept loop `tcpipForwardConnectionHandler`, run over a finite
trace of accept outcomes. Mirrors the Go loop body: an accept error that
is a `*net.OpError` reporting `Timeout()` or `Temporary()` is swallowed
by `continue`; any other accept error returns the wrapped error,
terminating the loop (second component `some _`). For an accepted
connection the loop notifies "accepted connection from `host`:`port`",
then calls `newChannel`; on channel-open failure it notifies the
diagnostic but — lacking any `continue`, `conn.Close()` or early return —
still falls through and spawns the two copy tasks on the nil channel. An
exhausted trace (second component `none`) models the loop still blocked
in `Accept()`. -/
def tcpipForwardConnectionHandler :
    List AcceptEvent → List LoopAction × Option String
  | [] => ([], none)
  | .acceptError e :: rest =>
      if e.isOpError && (e.timeout || e.temporary) then
        tcpipForwardConnectionHandler rest
      else
        ([], some (wrapAcceptError e))
  | .accepted c chErr :: rest =>
      let accMsg := "accepted connection from " ++ c.remoteHost ++ ":"
        ++ toString c.remotePort
      let here :=
        match chErr with
        | none =>
            [LoopAction.notify accMsg, LoopAction.spawnRelayTasks c true]
        | some m =>
            [LoopAction.notify accMsg,
             LoopAction.notify ("error occurred while processing: " ++ m),
             LoopAction.spawnRelayTasks c false]
      let r := tcpipForwardConnectionHandler rest
      (here ++ r.1, r.2)

/-- The supervising goroutine spawned by the request handler:
`defer close(messages)` around a call to the accept loop, sending
`"error occurred while processing: <err>"` when the loop returns an
error. The deferred close runs last, so on a fatal accept error the
diagnostic precedes the stream close; while the loop is still blocked in
`Accept()` (exhausted trace) neither happens. -/
def supervisorTask (events : List AcceptEvent) : List LoopAction :=
  let r := tcpipForwardConnectionHandler events
  match r.2 with
  | none => r.1
  | some e =>
      r.1 ++ [LoopAction.notify ("error occurred while processing: " ++ e),
              LoopAction.closeStream]

/-- The accepted socket of the C7 evaluation trace. -/
def connC7 : Conn := { remoteHost := "10.0.0.5", remotePort := 5555 }

/-- How `io.Copy(dst, src)` ends: the source reached end-of-input, or a
read/write failed with an I/O error after `errAt` bytes. -/
inductive CopyOutcome where
  | eof
  | ioError (msg : String)
deriving Repr, DecidableEq

/-- An observable action of one relay copy task: bytes transferred, a
`Close()` of the accepted socket, or a `Close()` of the logical
channel. -/
inductive RelayAction where
  | transfer (bytes : List Nat)
  | closeConnSocket
  | closeChannel
deriving Repr, DecidableEq

/-- The bytes `io.Copy` moves before stopping: the whole source on
end-of-input, a prefix of it when an I/O error interrupts the copy after
`errAt` bytes. -/
def ioCopy (src : List Nat) (outcome : CopyOutcome) (errAt : Nat) : List Nat :=
  match outcome with
  | .eof => src
  | .ioError _ => src.take errAt

/-- One relay copy goroutine:
`defer channel.Close(); defer conn.Close(); io.Copy(dst, src)`. The copy
runs to end-of-input or error, then the deferred closes run in LIFO
order — the socket first, the channel second — regardless of how the copy
ended. Both the socket→channel and the channel→socket goroutine have this
same shape. -/
def relayCopyTask (src : List Nat) (outcome : CopyOutcome) (errAt : Nat) :
    List RelayAction :=
  [RelayAction.transfer (ioCopy src outcome errAt),
   RelayAction.closeConnSocket, RelayAction.closeChannel]

/-- The closedness state of a relay's two endpoints. `Close()` is
idempotent: closing an already-closed endpoint leaves the state
unchanged. -/
structure RelayState where
  connOpen : Bool
  channelOpen : Bool
deriving Repr, DecidableEq

/-- Effect of one relay action on the endpoint state. -/
def applyRelayAction (s : RelayState) : RelayAction → RelayState
  | .transfer _ => s
  | .closeConnSocket => { s with connOpen := false }
  | .closeChannel => { s with channelOpen := false }

/-- Effect of a sequence of relay actions on the endpoint state. -/
def runRelayActions (s : RelayState) (as : List RelayAction) : RelayState :=
  as.foldl applyRelayAction s

/-- C1: `allowTCPForwarding p` holds exactly when `p = 0` or `p > 1024`
with `p` none of 22, 80, 443 — and, equivalently, exactly when `p = 0` or
`p > 1024` (the reserved-port conjuncts are subsumed because those three
ports are all below 1024). Being a Lean function into `Bool`, it is pure
and total and never fails. -/
theorem allowTCPForwarding_iff (p : Nat) :
    (allowTCPForwarding p = true ↔ (p = 0 ∨ (p > 1024 ∧ p ≠ 22 ∧ p ≠ 80 ∧ p ≠ 443)))
    ∧ (allowTCPForwarding p = true ↔ (p = 0 ∨ p > 1024)) := by
  simp only [allowTCPForwarding, Bool.or_eq_true, Bool.and_eq_true, bne_iff_ne,
    decide_eq_true_eq, beq_iff_eq]
  omega

/-- C2: the handler's admission decision does NOT agree with
`allowTCPForwarding`: on the request for port 1000 — a port the policy
forbids (`allowTCPForwarding 1000 = false`) — the handler proceeds to
bind a listener and replies with success. The inline check only excludes
22, 80 and 443 and never enforces `port > 1024`. -/
theorem handler_admits_port_disallowed_by_policy :
    allowTCPForwarding 1000 = false
    ∧ (tcpipForwardRequestHandler envPort1000).ok = true
    ∧ (tcpipForwardRequestHandler envPort1000).openedListener
        = some { addrHost := "127.0.0.1", addrPort := 1000 } := by
  refine ⟨by decide, rfl, rfl⟩

/-- C3: for any decodable bind request whose port is 22, 80 or 443, the
handler replies `ok = false` with the diagnostic
`"forwarding <port> not supported yet"` — a text containing the decimal
rendering of the offending port — and opens no listening socket. -/
theorem reserved_port_rejected (env : HandlerEnv) (req : BindRequest)
    (h1 : env.messagesOk = true) (h2 : env.decoded = some req)
    (h3 : req.bindPort = 22 ∨ req.bindPort = 80 ∨ req.bindPort = 443) :
    (tcpipForwardRequestHandler env).ok = false
    ∧ (tcpipForwardRequestHandler env).payload
        = Reply.raw ("forwarding " ++ toString req.bindPort ++ " not supported yet")
    ∧ (∃ pre post,
        ("forwarding " ++ toString req.bindPort ++ " not supported yet").data
          = pre ++ (toString req.bindPort).data ++ post)
    ∧ (tcpipForwardRequestHandler env).openedListener = none := by
  rcases h3 with h | h | h <;>
    refine ⟨?_, ?_,
      ⟨"forwarding ".data, " not supported yet".data, by
        simp [String.data_append]⟩, ?_⟩ <;>
    simp [tcpipForwardRequestHandler, h1, h2, h]

/-- C3 witness: instantiated at the concrete environment requesting
port 22. -/
theorem reserved_port_rejected_witness :
    (tcpipForwardRequestHandler envPort22).ok = false
    ∧ (tcpipForwardRequestHandler envPort22).payload
        = Reply.raw ("forwarding " ++ toString (22 : Nat) ++ " not supported yet")
    ∧ (∃ pre post,
        ("forwarding " ++ toString (22 : Nat) ++ " not supported yet").data
          = pre ++ (toString (22 : Nat)).data ++ post)
    ∧ (tcpipForwardRequestHandler envPort22).openedListener = none :=
  reserved_port_rejected envPort22 { bindAddr := "127.0.0.1", bindPort := 22 }
    rfl rfl (Or.inl rfl)

/-- C4: for a decodable request with `bindPort = 0` whose bind succeeds,
the handler replies with success and the `boundPort` in the response is
the port read back from the live listener's address — in particular, when
the OS assigned a nonzero ephemeral port, the response is not
`bindResponse 0`. -/
theorem ephemeral_bind_reports_actual_port (env : HandlerEnv) (req : BindRequest)
    (ln : Listener)
    (h1 : env.messagesOk = true) (h2 : env.decoded = some req)
    (h3 : req.bindPort = 0) (h4 : env.listen req.bindAddr req.bindPort = some ln) :
    (tcpipForwardRequestHandler env).ok = true
    ∧ (tcpipForwardRequestHandler env).payload = Reply.bindResponse ln.addrPort
    ∧ (ln.addrPort ≠ 0 →
        (tcpipForwardRequestHandler env).payload ≠ Reply.bindResponse 0) := by
  simp only [tcpipForwardRequestHandler, h1, h2, Bool.not_true, Bool.false_eq_true,
    if_false, h3]
  norm_num [h3 ▸ h4]

/-- C4 witness: instantiated at the concrete ephemeral environment where
the OS assigns port 43210. -/
theorem ephemeral_bind_reports_actual_port_witness :
    (tcpipForwardRequestHandler envEphemeral).ok = true
    ∧ (tcpipForwardRequestHandler envEphemeral).payload = Reply.bindResponse 43210
    ∧ ((43210 : Nat) ≠ 0 →
        (tcpipForwardRequestHandler envEphemeral).payload ≠ Reply.bindResponse 0) := by
  have h := ephemeral_bind_reports_actual_port envEphemeral
    { bindAddr := "localhost", bindPort := 0 }
    { addrHost := "127.0.0.1", addrPort := 43210 } rfl rfl rfl rfl
  exact ⟨h.1, h.2.1, fun _ => h.2.2 (by decide)⟩

/-- C5: when the payload fails to decode, the handler rejects with a
zero-length diagnostic payload, opens no listening socket and spawns no
accept-loop task. -/
theorem undecodable_payload_rejected (env : HandlerEnv)
    (h1 : env.messagesOk = true) (h2 : env.decoded = none) :
    (tcpipForwardRequestHandler env).ok = false
    ∧ (tcpipForwardRequestHandler env).payload = Reply.raw ""
    ∧ (tcpipForwardRequestHandler env).payload.byteLength = 0
    ∧ (tcpipForwardRequestHandler env).openedListener = none
    ∧ (tcpipForwardRequestHandler env).supervisorSpawned = false := by
  simp [tcpipForwardRequestHandler, h1, h2, Reply.byteLength]

/-- C5 witness: instantiated at the concrete undecodable-payload
environment. -/
theorem undecodable_payload_rejected_witness :
    (tcpipForwardRequestHandler envBadPayload).ok = false
    ∧ (tcpipForwardRequestHandler envBadPayload).payload = Reply.raw ""
    ∧ (tcpipForwardRequestHandler envBadPayload).payload.byteLength = 0
    ∧ (tcpipForwardRequestHandler envBadPayload).openedListener = none
    ∧ (tcpipForwardRequestHandler envBadPayload).supervisorSpawned = false :=
  undecodable_payload_rejected envBadPayload rfl rfl

/-- C10: whenever the handler fails after having retrieved the messages
channel (the type assertion succeeded, so the deferred cleanup was
registered), the deferred function closes the per-connection messages
channel before the handler returns. -/
theorem failed_request_closes_messages (env : HandlerEnv)
    (h1 : env.messagesOk = true)
    (h2 : (tcpipForwardRequestHandler env).ok = false) :
    (tcpipForwardRequestHandler env).closedMessages = true := by
  rcases henv : env.decoded with _ | req
  · simp [tcpipForwardRequestHandler, h1, henv]
  · by_cases hc :
      (req.bindPort != 22 && req.bindPort != 80 && req.bindPort != 443) = true
    · rcases hl : env.listen req.bindAddr req.bindPort with _ | ln
      · simp only [Bool.and_eq_true, bne_iff_ne] at hc
        simp [tcpipForwardRequestHandler, h1, henv, hc, hl]
      · exfalso
        simp only [Bool.and_eq_true, bne_iff_ne] at hc
        simp [tcpipForwardRequestHandler, h1, henv, hc, hl] at h2
    · simp [tcpipForwardRequestHandler, h1, henv, hc]

/-- C10 witness: instantiated at the concrete undecodable-payload
environment, a rejected request on a connection whose messages channel
was retrieved. -/
theorem failed_request_closes_messages_witness :
    (tcpipForwardRequestHandler envBadPayload).closedMessages = true :=
  failed_request_closes_messages envBadPayload rfl rfl

/-- C9 counterexample: on the successful ephemeral bind, the handler
sends the "forwarding traffic from ..." line on the notification stream
BEFORE returning its reply — so it is false that all notification
messages are emitted only after the handler has returned, and false that
the reply precedes every notification. -/
theorem notification_before_return :
    (tcpipForwardRequestHandler envEphemeral).ok = true
    ∧ ¬ (tcpipForwardRequestHandler envEphemeral).preReturnMessages = [] := by
  refine ⟨rfl, ?_⟩
  intro h
  simp [tcpipForwardRequestHandler, envEphemeral, addrString] at h

/-- C9 amended: on a successful bind the handler emits exactly one
notification — the "forwarding traffic from `addr`" line — on the stream
before returning its success reply; every rejected request emits no
notification before returning, and all accept-loop and relay
notifications are produced by the supervisor task that the handler spawns
and that runs after the handler has returned. -/
theorem handler_pre_return_notifications (env : HandlerEnv) (req : BindRequest)
    (ln : Listener)
    (h1 : env.messagesOk = true) (h2 : env.decoded = some req)
    (h3 : (req.bindPort != 22 && req.bindPort != 80 && req.bindPort != 443) = true)
    (h4 : env.listen req.bindAddr req.bindPort = some ln) :
    (tcpipForwardRequestHandler env).ok = true
    ∧ (tcpipForwardRequestHandler env).preReturnMessages
        = ["forwarding traffic from " ++ addrString ln]
    ∧ (tcpipForwardRequestHandler env).supervisorSpawned = true
    ∧ (∀ env2 : HandlerEnv, (tcpipForwardRequestHandler env2).ok = false →
        (tcpipForwardRequestHandler env2).preReturnMessages = []) := by
  simp only [Bool.and_eq_true, bne_iff_ne] at h3
  refine ⟨?_, ?_, ?_, ?_⟩
  · simp [tcpipForwardRequestHandler, h1, h2, h3, h4]
  · simp [tcpipForwardRequestHandler, h1, h2, h3, h4]
  · simp [tcpipForwardRequestHandler, h1, h2, h3, h4]
  · intro env2 hok
    rcases hm : env2.messagesOk with _ | _
    · simp [tcpipForwardRequestHandler, hm]
    · rcases henv : env2.decoded with _ | req2
      · simp [tcpipForwardRequestHandler, hm, henv]
      · by_cases hc :
          (req2.bindPort != 22 && req2.bindPort != 80 && req2.bindPort != 443) = true
        · rcases hl : env2.listen req2.bindAddr req2.bindPort with _ | ln2
          · simp only [Bool.and_eq_true, bne_iff_ne] at hc
            simp [tcpipForwardRequestHandler, hm, henv, hc, hl]
          · exfalso
            simp only [Bool.and_eq_true, bne_iff_ne] at hc
            simp [tcpipForwardRequestHandler, hm, henv, hc, hl] at hok
        · simp [tcpipForwardRequestHandler, hm, henv, hc]

/-- C9 amended witness: instantiated at the concrete ephemeral
environment, where the one pre-return notification names the bound
address 127.0.0.1:43210. -/
theorem handler_pre_return_notifications_witness :
    (tcpipForwardRequestHandler envEphemeral).ok = true
    ∧ (tcpipForwardRequestHandler envEphemeral).preReturnMessages
        = ["forwarding traffic from "
            ++ addrString { addrHost := "127.0.0.1", addrPort := 43210 }]
    ∧ (tcpipForwardRequestHandler envEphemeral).supervisorSpawned = true
    ∧ (∀ env2 : HandlerEnv, (tcpipForwardRequestHandler env2).ok = false →
        (tcpipForwardRequestHandler env2).preReturnMessages = []) :=
  handler_pre_return_notifications envEphemeral
    { bindAddr := "localhost", bindPort := 0 }
    { addrHost := "127.0.0.1", addrPort := 43210 } rfl rfl (by decide) rfl

/-- C6: an accept error that is a `*net.OpError` reporting timeout or
temporary is swallowed — the loop's behaviour on the rest of the trace is
unchanged; any other accept error is fatal — the loop terminates with the
wrapped error, processing none of the remaining events, and the
supervising task emits the diagnostic notification and then closes the
notification stream, in that order. -/
theorem accept_error_classification (e : AcceptError) (rest : List AcceptEvent) :
    ((e.isOpError && (e.timeout || e.temporary)) = true →
      tcpipForwardConnectionHandler (AcceptEvent.acceptError e :: rest)
        = tcpipForwardConnectionHandler rest)
    ∧ ((e.isOpError && (e.timeout || e.temporary)) = false →
      (tcpipForwardConnectionHandler (AcceptEvent.acceptError e :: rest)).2
        = some (wrapAcceptError e)
      ∧ supervisorTask (AcceptEvent.acceptError e :: rest)
        = [LoopAction.notify
            ("error occurred while processing: " ++ wrapAcceptError e),
           LoopAction.closeStream]) := by
  constructor
  · intro h
    simp [tcpipForwardConnectionHandler, h]
  · intro h
    constructor
    · simp [tcpipForwardConnectionHandler, h]
    · simp [supervisorTask, tcpipForwardConnectionHandler, h]

/-- C6 witness: a timeout `*net.OpError` before an empty trace leaves the
loop in the same state as the empty trace; a non-`OpError` accept failure
terminates the loop, and the supervisor emits the diagnostic and then
closes the stream. -/
theorem accept_error_classification_witness :
    (tcpipForwardConnectionHandler
        [AcceptEvent.acceptError
          { isOpError := true, timeout := true, temporary := false, msg := "i/o timeout" }]
      = tcpipForwardConnectionHandler [])
    ∧ ((tcpipForwardConnectionHandler
        [AcceptEvent.acceptError
          { isOpError := false, timeout := false, temporary := false,
            msg := "use of closed network connection" }]).2
        = some (wrapAcceptError
            { isOpError := false, timeout := false, temporary := false,
              msg := "use of closed network connection" })
      ∧ supervisorTask
          [AcceptEvent.acceptError
            { isOpError := false, timeout := false, temporary := false,
              msg := "use of closed network connection" }]
        = [LoopAction.notify
            ("error occurred while processing: " ++ wrapAcceptError
              { isOpError := false, timeout := false, temporary := false,
                msg := "use of closed network connection" }),
           LoopAction.closeStream]) :=
  ⟨(accept_error_classification
      { isOpError := true, timeout := true, temporary := false, msg := "i/o timeout" }
      []).1 rfl,
   (accept_error_classification
      { isOpError := false, timeout := false, temporary := false,
        msg := "use of closed network connection" }
      []).2 rfl⟩

/-- C7: evaluating the accept loop on a trace whose single accepted
socket fails its forwarded-tcpip channel open. The loop does emit the
diagnostic notification and does keep running (it does not terminate),
but it never closes the accepted socket and does not abandon the relay:
it still spawns both copy tasks on the failed (nil) channel. -/
theorem channel_open_failure_keeps_socket :
    tcpipForwardConnectionHandler
        [AcceptEvent.accepted connC7 (some "open failed")]
      = ([LoopAction.notify ("accepted connection from 10.0.0.5:5555"),
          LoopAction.notify ("error occurred while processing: open failed"),
          LoopAction.spawnRelayTasks connC7 false], none)
    ∧ ∀ c, LoopAction.closeConn c ∉
        (tcpipForwardConnectionHandler
          [AcceptEvent.accepted connC7 (some "open failed")]).1 := by
  constructor
  · rfl
  · intro c
    simp [tcpipForwardConnectionHandler, connC7]

/-- C8: each relay copy task — whether `io.Copy` stopped at end-of-input
or at an I/O error after any number of bytes — performs both deferred
closes, so after either of the two loops finishes, both the accepted
socket and the logical channel are closed, from any starting state
(closing an already-closed endpoint is an idempotent no-op): neither
endpoint outlives the other. -/
theorem relay_copy_closes_both_endpoints (src : List Nat) (o : CopyOutcome)
    (errAt : Nat) (s : RelayState) :
    RelayAction.closeConnSocket ∈ relayCopyTask src o errAt
    ∧ RelayAction.closeChannel ∈ relayCopyTask src o errAt
    ∧ (runRelayActions s (relayCopyTask src o errAt)).connOpen = false
    ∧ (runRelayActions s (relayCopyTask src o errAt)).channelOpen = false := by
  refine ⟨by simp [relayCopyTask], by simp [relayCopyTask], ?_, ?_⟩ <;>
    simp [relayCopyTask, runRelayActions, applyRelayAction]

end Shhh
